import Mathlib

/-!
Shallow embedding of two Vue view components of the kolibri repository:

* `src/kolibri/plugins/management/assets/src/views/manage-class-page/class-create-modal.vue`
* `src/kolibri/plugins/coach/assets/src/views/reports/item-list-page.vue`

Component-local data (props, `data()`, computed properties) becomes a Lean
structure; each method becomes a function from the component state to a pair of
the resulting component state and the list of external action invocations the
method performs, in order.  JavaScript string primitives used by the code are
modelled in the `JsString` namespace.
-/

namespace JsString

/-- Models JavaScript `String.prototype.toUpperCase()`: the per-character
upper-case mapping over the string's characters (faithful on the ASCII
range). -/
def toUpperCase (s : String) : String :=
  String.mk (s.data.map Char.toUpper)

/-- Models JavaScript `String.prototype.trim()`: removes leading and trailing
whitespace characters. -/
def trim (s : String) : String :=
  String.mk
    (((s.data.dropWhile Char.isWhitespace).reverse.dropWhile
        Char.isWhitespace).reverse)

end JsString

/-- Models JavaScript `Array.prototype.findIndex`: the index of the first
element satisfying `p`, or `-1` when none does.  `findIndexAux p l i` scans `l`
with `i` the index of its head in the original array. -/
def findIndexAux {α : Type} (p : α → Bool) : List α → Int → Int
  | [], _ => -1
  | x :: xs, i => if p x then i else findIndexAux p xs (i + 1)

/-- `Array.prototype.findIndex` over a whole list, starting at index `0`. -/
def findIndex {α : Type} (p : α → Bool) (l : List α) : Int :=
  findIndexAux p l 0

/-- A classroom record as consumed by the modal: only the `name` field is read
(`classroom.name.toUpperCase()`, class-create-modal.vue line 74). -/
structure Classroom where
  name : String
deriving DecidableEq

/-- An invocation of one of the two vuex actions the modal binds
(class-create-modal.vue lines 91-96): `createClass(name)` and
`displayModal(visible)`. -/
inductive ActionCall where
  | createClass (name : String)
  | displayModal (visible : Bool)
deriving DecidableEq

/-- Component state of `class-create-modal.vue`: the `classes` prop
(lines 60-65) and the local draft `name` from `data()` (lines 66-70). -/
structure ClassCreateModal where
  classes : List Classroom
  name : String
deriving DecidableEq

/-- Computed property `duplicateName` (class-create-modal.vue lines 72-79):
`findIndex` over `this.classes` comparing upper-cased names with the upper-cased
draft name; `false` when the index is `-1`, `true` otherwise. -/
def ClassCreateModal.duplicateName (self : ClassCreateModal) : Bool :=
  let index := findIndex
    (fun classroom =>
      JsString.toUpperCase classroom.name == JsString.toUpperCase self.name)
    self.classes
  if index = -1 then false else true

/-- Method `createNewClass` (class-create-modal.vue lines 82-86): when the
draft name is not a duplicate, invoke `this.createClass(this.name)`; otherwise
do nothing.  The method assigns no component field, so the state component of
the result is the incoming state. -/
def ClassCreateModal.createNewClass (self : ClassCreateModal) :
    ClassCreateModal × List ActionCall :=
  if !self.duplicateName then
    (self, [ActionCall.createClass self.name])
  else
    (self, [])

/-- Method `close` (class-create-modal.vue lines 87-89): invoke
`this.displayModal(false)`. -/
def ClassCreateModal.close (self : ClassCreateModal) :
    ClassCreateModal × List ActionCall :=
  (self, [ActionCall.displayModal false])

/-- The `v-model.trim="name"` binding on the core-textbox
(class-create-modal.vue line 12): an input event carrying the raw field
contents stores the trimmed string into the local draft `name`. -/
def ClassCreateModal.textInput (self : ClassCreateModal) (raw : String) :
    ClassCreateModal :=
  { self with name := JsString.trim raw }

/-- The user events the template of `class-create-modal.vue` wires to methods:
form submission (`@submit.prevent="createNewClass"`, line 8), a click on the
cancel button (`@click="close"`, line 25), and the modal shell's own cancel
signal (`@cancel="close"`, line 5). -/
inductive ModalEvent where
  | submit
  | cancelClick
  | modalCancel
deriving DecidableEq

/-- Dispatch of the template's event bindings to the component methods. -/
def ClassCreateModal.handleEvent (self : ClassCreateModal) :
    ModalEvent → ClassCreateModal × List ActionCall
  | ModalEvent.submit => self.createNewClass
  | ModalEvent.cancelClick => self.close
  | ModalEvent.modalCancel => self.close

/-- Modelled from the spec: the bodies of the external bridge actions
(`require('../../state/actions')`; that file is not part of the supplied
sources).  The spec fixes their observable behaviour: invoking the create
classroom action with a name performs the create request and is then followed
by exactly one hide-modal request ("create('Science') called once, then
displayModal(false) called once"), and the visibility action performs exactly
the requested visibility change.  `actionEffects c` is the sequence of
bridge-level requests performed by the invocation `c`. -/
def actionEffects : ActionCall → List ActionCall
  | ActionCall.createClass n =>
      [ActionCall.createClass n, ActionCall.displayModal false]
  | ActionCall.displayModal v => [ActionCall.displayModal v]

/-- The full sequence of bridge-level requests resulting from a sequence of
action invocations made by the component, each expanded by `actionEffects`. -/
def bridgeTrace : List ActionCall → List ActionCall
  | [] => []
  | c :: rest => actionEffects c ++ bridgeTrace rest

namespace ContentNodeKinds

/-- Modelled from the spec: the topic kind constant
`CoreConstants.ContentNodeKinds.TOPIC` from the external module
`kolibri.coreVue.vuex.constants`, which is not part of the supplied sources.
The spec calls it "the topic kind constant", the row-kind discriminator
"distinguishing a topic (container) from a leaf content item". -/
def TOPIC : String := "topic"

end ContentNodeKinds

namespace PageNames

/-- Modelled from the spec: the page-name constant
`CoachConstants.PageNames.TOPIC_ITEM_LIST` from the external module
`../../constants`, which is not part of the supplied sources; it names the
topic-drilldown page of the navigation target descriptor. -/
def TOPIC_ITEM_LIST : String := "TOPIC_ITEM_LIST"

/-- Modelled from the spec: the page-name constant
`CoachConstants.PageNames.TOPIC_LEARNERS_FOR_ITEM` from the external module
`../../constants`, which is not part of the supplied sources; it names the
per-item learner page of the navigation target descriptor. -/
def TOPIC_LEARNERS_FOR_ITEM : String := "TOPIC_LEARNERS_FOR_ITEM"

end PageNames

/-- The `params` object of a navigation target descriptor (spec §6):
`{classId, channelId, topicId|contentId}`. -/
inductive RouteParams where
  | topicParams (classId : String) (channelId : String) (topicId : String)
  | contentParams (classId : String) (channelId : String) (contentId : String)
deriving DecidableEq

/-- A navigation target descriptor `{name, params}` as built by `genRowLink`
(item-list-page.vue lines 74-93), consumed by the external router. -/
structure RouteLink where
  name : String
  params : RouteParams
deriving DecidableEq

/-- A report row (spec §3): one per listed child item, consumed read-only for
rendering and for constructing the row's navigation link. -/
structure ReportRow where
  id : String
  kind : String
  title : String
  exerciseCount : Nat
  contentCount : Nat
  exerciseProgress : Rat
  contentProgress : Rat
  lastActive : Option String
deriving DecidableEq

/-- The content scope summary `{kind, title}` read from the page state
(item-list-page.vue lines 8 and 11). -/
structure ContentScopeSummary where
  kind : String
  title : String
deriving DecidableEq

/-- The slice of the externally supplied `pageState` object the component
reads: `pageState.channelId` (genRowLink) and `pageState.contentScopeSummary`
(the header). -/
structure PageState where
  channelId : String
  contentScopeSummary : ContentScopeSummary
deriving DecidableEq

/-- Component state of `item-list-page.vue`: the vuex getter bindings
(lines 95-103): `classId`, `pageState`, `exerciseCount`, `contentCount` and
`standardDataTable`, all supplied externally and read-only here. -/
structure ItemListPage where
  classId : String
  pageState : PageState
  exerciseCount : Nat
  contentCount : Nat
  standardDataTable : List ReportRow
deriving DecidableEq

/-- Method `genRowLink` (item-list-page.vue lines 74-93): a topic row links to
the `TOPIC_ITEM_LIST` page with the row's id as `topicId`; any other row links
to the `TOPIC_LEARNERS_FOR_ITEM` page with the row's id as `contentId`; both
descriptors carry `this.classId` and `this.pageState.channelId`. -/
def genRowLink (self : ItemListPage) (row : ReportRow) : RouteLink :=
  if row.kind = ContentNodeKinds.TOPIC then
    { name := PageNames.TOPIC_ITEM_LIST,
      params := RouteParams.topicParams
        self.classId self.pageState.channelId row.id }
  else
    { name := PageNames.TOPIC_LEARNERS_FOR_ITEM,
      params := RouteParams.contentParams
        self.classId self.pageState.channelId row.id }

/-- One rendered body row of the report table (item-list-page.vue lines 30-39):
the props handed to the table cells of the `<tr>` rendered for a row, keyed by
`row.id`. -/
structure RenderedRow where
  key : String
  nameCellKind : String
  nameCellTitle : String
  nameCellLink : RouteLink
  exerciseCount : Nat
  contentCount : Nat
  exerciseProgress : Rat
  contentProgress : Rat
  lastActive : Option String
deriving DecidableEq

/-- Rendering of a single `<tr>` of the table body (item-list-page.vue
lines 30-39). -/
def renderRow (page : ItemListPage) (row : ReportRow) : RenderedRow :=
  { key := row.id,
    nameCellKind := row.kind,
    nameCellTitle := row.title,
    nameCellLink := genRowLink page row,
    exerciseCount := row.exerciseCount,
    contentCount := row.contentCount,
    exerciseProgress := row.exerciseProgress,
    contentProgress := row.contentProgress,
    lastActive := row.lastActive }

/-- Rendering of the table body: `v-for="row in standardDataTable"`
(item-list-page.vue line 30), one rendered row per data row, in order.  The
function is total: no error value exists in its result type. -/
def renderTableBody (page : ItemListPage) : List RenderedRow :=
  page.standardDataTable.map (renderRow page)

theorem findIndexAux_eq_neg_one {α : Type} (p : α → Bool) (l : List α) :
    ∀ i : Int, 0 ≤ i → (findIndexAux p l i = -1 ↔ l.any p = false) := by
  induction l with
  | nil => intro i hi; simp [findIndexAux]
  | cons x xs ih =>
      intro i hi
      by_cases hp : p x
      · simp [findIndexAux, hp]
        omega
      · simp [findIndexAux, hp, ih (i + 1) (by omega)]

theorem duplicateName_eq_any (classes : List Classroom) (n : String) :
    (ClassCreateModal.mk classes n).duplicateName
      = classes.any (fun c =>
          JsString.toUpperCase c.name == JsString.toUpperCase n) := by
  have h := findIndexAux_eq_neg_one
    (fun c : Classroom =>
      JsString.toUpperCase c.name == JsString.toUpperCase n)
    classes 0 (le_refl 0)
  show (if findIndexAux
      (fun c : Classroom =>
        JsString.toUpperCase c.name == JsString.toUpperCase n) classes 0 = -1
    then false else true) = _
  rcases hany : classes.any (fun c =>
      JsString.toUpperCase c.name == JsString.toUpperCase n) with _ | _
  · rw [if_pos (h.mpr hany)]
  · rw [if_neg fun hc => by simp [h.mp hc] at hany]

/-- Example state for the witnesses: the spec's example classroom list
`[{name: "Math"}]`. -/
def exampleClasses : List Classroom := [{ name := "Math" }]

/-- Example page for the witnesses: empty `standardDataTable`. -/
def examplePage : ItemListPage :=
  { classId := "class1",
    pageState :=
      { channelId := "chan1",
        contentScopeSummary := { kind := "topic", title := "Root" } },
    exerciseCount := 0,
    contentCount := 0,
    standardDataTable := [] }

/-- Example non-topic row for the `genRowLink` totality witness: a kind that is
neither topic, exercise nor resource. -/
def exampleVideoRow : ReportRow :=
  { id := "v1",
    kind := "video",
    title := "Clip",
    exerciseCount := 0,
    contentCount := 1,
    exerciseProgress := 0,
    contentProgress := 0,
    lastActive := none }

/-- C1: submitting the form with a non-duplicate draft name invokes the
external create action exactly once with that name, and the resulting sequence
of bridge-level requests is that create request followed by exactly one
hide-modal request `displayModal(false)`. -/
theorem createNewClass_nonduplicate (classes : List Classroom) (n : String)
    (h : (ClassCreateModal.mk classes n).duplicateName = false) :
    ((ClassCreateModal.mk classes n).createNewClass).2
        = [ActionCall.createClass n]
    ∧ bridgeTrace ((ClassCreateModal.mk classes n).createNewClass).2
        = [ActionCall.createClass n, ActionCall.displayModal false] := by
  constructor <;>
    simp [ClassCreateModal.createNewClass, h, bridgeTrace, actionEffects]

/-- C1 witness: the spec's example, classes `[{name: "Math"}]` and input
`"Science"`. -/
theorem createNewClass_nonduplicate_witness :
    ((ClassCreateModal.mk exampleClasses "Science").createNewClass).2
        = [ActionCall.createClass "Science"]
    ∧ bridgeTrace ((ClassCreateModal.mk exampleClasses "Science").createNewClass).2
        = [ActionCall.createClass "Science", ActionCall.displayModal false] :=
  createNewClass_nonduplicate exampleClasses "Science" (by decide)

/-- C2: the duplicate-name check is true exactly when some classroom of the
list has the same case-insensitive (upper-cased) name as the candidate. -/
theorem duplicateName_iff (classes : List Classroom) (n : String) :
    (ClassCreateModal.mk classes n).duplicateName = true
      ↔ ∃ c ∈ classes,
          JsString.toUpperCase c.name = JsString.toUpperCase n := by
  rw [duplicateName_eq_any]
  simp [List.any_eq_true]

/-- C3: submitting the form with a duplicate draft name performs no action
invocation at all (empty trace, and empty bridge-level request sequence), and
leaves the component state unchanged; the method returns normally. -/
theorem createNewClass_duplicate (classes : List Classroom) (n : String)
    (h : (ClassCreateModal.mk classes n).duplicateName = true) :
    (ClassCreateModal.mk classes n).createNewClass
        = (ClassCreateModal.mk classes n, [])
    ∧ bridgeTrace ((ClassCreateModal.mk classes n).createNewClass).2 = [] := by
  constructor <;> simp [ClassCreateModal.createNewClass, h, bridgeTrace]

/-- C3 witness: the spec's example, classes `[{name: "Math"}]` and input
`"math"` (a case-insensitive duplicate). -/
theorem createNewClass_duplicate_witness :
    (ClassCreateModal.mk exampleClasses "math").createNewClass
        = (ClassCreateModal.mk exampleClasses "math", [])
    ∧ bridgeTrace ((ClassCreateModal.mk exampleClasses "math").createNewClass).2
        = [] :=
  createNewClass_duplicate exampleClasses "math" (by decide)

/-- C4: in every component state, both the cancel button's click and the modal
shell's cancel signal run `close`, whose trace is exactly one
`displayModal(false)` invocation and contains no create invocation; the
bridge-level request sequence is that single hide-modal request. -/
theorem cancel_hides_and_never_creates (s : ClassCreateModal) :
    s.handleEvent ModalEvent.cancelClick = (s, [ActionCall.displayModal false])
    ∧ s.handleEvent ModalEvent.modalCancel = (s, [ActionCall.displayModal false])
    ∧ bridgeTrace [ActionCall.displayModal false]
        = [ActionCall.displayModal false] :=
  ⟨rfl, rfl, rfl⟩

/-- C5: the row link is the topic-drilldown descriptor (page
`TOPIC_ITEM_LIST`, the row's id as `topicId`) exactly when the row's kind is
the topic kind constant, and the per-item learner descriptor (page
`TOPIC_LEARNERS_FOR_ITEM`, the row's id as `contentId`) exactly otherwise; in
both descriptors `classId` and `channelId` are those of the enclosing page
state, unchanged. -/
theorem genRowLink_topic_iff (page : ItemListPage) (row : ReportRow) :
    (genRowLink page row
        = { name := PageNames.TOPIC_ITEM_LIST,
            params := RouteParams.topicParams
              page.classId page.pageState.channelId row.id }
      ↔ row.kind = ContentNodeKinds.TOPIC)
    ∧ (genRowLink page row
        = { name := PageNames.TOPIC_LEARNERS_FOR_ITEM,
            params := RouteParams.contentParams
              page.classId page.pageState.channelId row.id }
      ↔ row.kind ≠ ContentNodeKinds.TOPIC) := by
  by_cases h : row.kind = ContentNodeKinds.TOPIC <;>
    simp [genRowLink, h]

/-- C6: after an input event with raw contents `raw`, the local draft name is
the trimmed string, the duplicate check compares against the trimmed string
(upper-cased), and a submission that passes the check invokes create with the
trimmed string. -/
theorem textInput_trims (s : ClassCreateModal) (raw : String) :
    (s.textInput raw).name = JsString.trim raw
    ∧ (s.textInput raw).duplicateName
        = s.classes.any (fun c =>
            JsString.toUpperCase c.name
              == JsString.toUpperCase (JsString.trim raw))
    ∧ ((s.textInput raw).createNewClass).2
        = (if (s.textInput raw).duplicateName then []
           else [ActionCall.createClass (JsString.trim raw)]) := by
  refine ⟨rfl, duplicateName_eq_any s.classes (JsString.trim raw), ?_⟩
  cases h : (s.textInput raw).duplicateName <;>
    simp only [ClassCreateModal.textInput] at h <;>
    simp [ClassCreateModal.createNewClass, ClassCreateModal.textInput, h]

/-- C7: when the externally supplied `standardDataTable` is empty, the table
body renders zero rows; `renderTableBody` is total, so no error state arises
locally. -/
theorem renderTableBody_empty (page : ItemListPage)
    (h : page.standardDataTable = []) :
    renderTableBody page = [] := by
  simp [renderTableBody, h]

/-- C7 witness: the example page, whose `standardDataTable` is `[]`. -/
theorem renderTableBody_empty_witness :
    renderTableBody examplePage = [] :=
  renderTableBody_empty examplePage rfl

/-- C8: with an empty classroom list the duplicate check is false for every
candidate name (the empty string included), so every submission invokes the
create action with the draft name. -/
theorem emptyClasses_always_creates (n : String) :
    (ClassCreateModal.mk [] n).duplicateName = false
    ∧ ((ClassCreateModal.mk [] n).createNewClass).2
        = [ActionCall.createClass n] := by
  have h : (ClassCreateModal.mk [] n).duplicateName = false := by
    rw [duplicateName_eq_any]; rfl
  exact ⟨h, by simp [ClassCreateModal.createNewClass, h]⟩

/-- C9: neither handler mutates the component state (the `classes` prop and
the draft `name` are unchanged), and the only effects are the listed
invocations of the two bound actions: `createNewClass` emits either the single
`createClass(name)` call or nothing, and `close` emits exactly
`displayModal(false)`. -/
theorem handlers_frame (s : ClassCreateModal) :
    (s.createNewClass).1 = s
    ∧ (s.close).1 = s
    ∧ ((s.createNewClass).2 = [ActionCall.createClass s.name]
        ∨ (s.createNewClass).2 = [])
    ∧ (s.close).2 = [ActionCall.displayModal false] := by
  refine ⟨?_, rfl, ?_, rfl⟩ <;>
    cases h : s.duplicateName <;>
      simp [ClassCreateModal.createNewClass, h]

/-- C10: `genRowLink` is total over rows of every kind: a row whose kind is
not the topic constant — whatever that kind is — gets the per-item learner
descriptor, and every result is one of the two descriptor shapes; there is no
third shape and no error branch. -/
theorem genRowLink_total (page : ItemListPage) (row : ReportRow) :
    (row.kind ≠ ContentNodeKinds.TOPIC →
      genRowLink page row
        = { name := PageNames.TOPIC_LEARNERS_FOR_ITEM,
            params := RouteParams.contentParams
              page.classId page.pageState.channelId row.id })
    ∧ (genRowLink page row
        = { name := PageNames.TOPIC_ITEM_LIST,
            params := RouteParams.topicParams
              page.classId page.pageState.channelId row.id }
      ∨ genRowLink page row
        = { name := PageNames.TOPIC_LEARNERS_FOR_ITEM,
            params := RouteParams.contentParams
              page.classId page.pageState.channelId row.id }) := by
  by_cases h : row.kind = ContentNodeKinds.TOPIC
  · exact ⟨fun hc => absurd h hc, Or.inl (by simp [genRowLink, h])⟩
  · exact ⟨fun _ => by simp [genRowLink, h], Or.inr (by simp [genRowLink, h])⟩

/-- C10 witness: a row of kind `"video"`, neither topic nor exercise nor
resource, gets the per-item learner descriptor. -/
theorem genRowLink_total_witness :
    genRowLink examplePage exampleVideoRow
      = { name := PageNames.TOPIC_LEARNERS_FOR_ITEM,
          params := RouteParams.contentParams "class1" "chan1" "v1" } :=
  (genRowLink_total examplePage exampleVideoRow).1 (by decide)
